import Mathlib

/-!
Shallow embedding of the restaurant web API (Express router `routes/restaurants.js`,
database module `modules/db.js`, and the mongoose schema `models/Restaurant.js`).

Query strings are modelled as association lists of string pairs, the JSON body of a
write request as a record of optional typed fields, the document store as a list of
stored entities, and every route handler as a pure function from (store, request)
to (response, repository-was-called flag, new store).  JavaScript string primitives
used by the code (trim, includes, join, parseInt on digit strings, regex tests) are
given executable Lean counterparts, with the schema regexes encoded in a small
Brzozowski-derivative regex engine.
-/

/-! ## JavaScript string primitives -/

/-- The apostrophe character (codepoint 39). -/
def aposChar : Char := Char.ofNat 39

/-- Whitespace as matched by the JavaScript escape used in the validation regexes
(space, tab, line feed, carriage return, vertical tab, form feed). -/
def isJsSpace (c : Char) : Bool :=
  c == ' ' || c == '\t' || c == '\n' || c == '\r' ||
  c == Char.ofNat 11 || c == Char.ofNat 12

/-- JavaScript `String.prototype.trim`: drop leading and trailing whitespace. -/
def jsTrim (s : String) : String :=
  String.mk (((s.data.dropWhile isJsSpace).reverse.dropWhile isJsSpace).reverse)

/-- ASCII lower-casing, as applied by the schema `lowercase: true` setter. -/
def jsLower (s : String) : String :=
  String.mk (s.data.map Char.toLower)

/-- Boolean prefix test on character lists. -/
def charsPre : List Char → List Char → Bool
  | [], _ => true
  | _ :: _, [] => false
  | a :: as, b :: bs => a == b && charsPre as bs

/-- Boolean contiguous-substring test on character lists (first argument inside second). -/
def charsSub : List Char → List Char → Bool
  | sub, [] => sub.isEmpty
  | sub, b :: t => charsPre sub (b :: t) || charsSub sub t

/-- JavaScript `String.prototype.includes`: `jsIncludes s sub` is true when `sub`
occurs contiguously inside `s`. -/
def jsIncludes (s sub : String) : Bool :=
  charsSub sub.data s.data

/-- JavaScript `Array.prototype.join` with a separator string. -/
def jsJoin (sep : String) : List String → String
  | [] => ""
  | [a] => a
  | a :: b :: t => a ++ sep ++ jsJoin sep (b :: t)

/-- Decimal digit test, the character class used by the `page`/`perPage` regex. -/
def isDigitChar (c : Char) : Bool :=
  '0' ≤ c && c ≤ '9'

/-- The test performed by the anchored digits-only regex on `page`/`perPage`:
a non-empty string of decimal digits. -/
def isDigitString (s : String) : Bool :=
  !s.data.isEmpty && s.data.all isDigitChar

/-- `parseInt(s, 10)` restricted to digit-only strings (the only strings the
router feeds it, after the digits-only regex has accepted). -/
def parseIntDigits (s : String) : Nat :=
  s.data.foldl (fun n c => 10 * n + (c.toNat - 48)) 0

/-- Character class of the borough whitelist regex: ASCII letters, whitespace,
hyphen, apostrophe. -/
def isBoroughChar (c : Char) : Bool :=
  ('a' ≤ c && c ≤ 'z') || ('A' ≤ c && c ≤ 'Z') || isJsSpace c ||
  c == '-' || c == aposChar

/-- The anchored borough whitelist regex: one or more whitelisted characters. -/
def boroughCharsOk (s : String) : Bool :=
  !s.data.isEmpty && s.data.all isBoroughChar

/-- Hexadecimal digit test for object identifiers. -/
def isHexChar (c : Char) : Bool :=
  ('0' ≤ c && c ≤ '9') || ('a' ≤ c && c ≤ 'f') || ('A' ≤ c && c ≤ 'F')

/-- The anchored 24-character hexadecimal identifier regex used by all item routes. -/
def isValidObjectId (s : String) : Bool :=
  s.data.length == 24 && s.data.all isHexChar

/-- Lexicographic comparison of character lists by codepoint; models the ascending
identifier order the storage engine applies when sorting on the primary key. -/
def charListLe : List Char → List Char → Bool
  | [], _ => true
  | _ :: _, [] => false
  | a :: as, b :: bs => if a < b then true else if b < a then false else charListLe as bs

/-! ## A small regex engine for the schema patterns

The mongoose schema attaches anchored regular expressions to `phone`, `email` and
`website`.  They are encoded with Brzozowski derivatives; matching is executable. -/

/-- Regular expressions over characters, with arbitrary character classes. -/
inductive RE where
  | eps : RE
  | cls : (Char → Bool) → RE
  | cat : RE → RE → RE
  | alt : RE → RE → RE
  | star : RE → RE

/-- Does the language of the expression contain the empty word? -/
def RE.nullable : RE → Bool
  | .eps => true
  | .cls _ => false
  | .cat a b => a.nullable && b.nullable
  | .alt a b => a.nullable || b.nullable
  | .star _ => true

/-- Brzozowski derivative with respect to one character. -/
def RE.deriv : RE → Char → RE
  | .eps, _ => .cls fun _ => false
  | .cls p, c => if p c then .eps else .cls fun _ => false
  | .cat a b, c =>
      if a.nullable then .alt (.cat (a.deriv c) b) (b.deriv c) else .cat (a.deriv c) b
  | .alt a b, c => .alt (a.deriv c) (b.deriv c)
  | .star a, c => .cat (a.deriv c) (.star a)

/-- Full match of a character list. -/
def RE.matchList : RE → List Char → Bool
  | r, [] => r.nullable
  | r, c :: cs => (r.deriv c).matchList cs

/-- Full match of a string. -/
def RE.matchStr (r : RE) (s : String) : Bool :=
  r.matchList s.data

/-- Single-character expression. -/
def RE.chr (c : Char) : RE := .cls (fun x => x == c)

/-- Zero-or-one repetition. -/
def RE.opt (r : RE) : RE := .alt .eps r

/-- One-or-more repetition. -/
def RE.plus (r : RE) : RE := .cat r (.star r)

/-- Concatenation of a list of expressions. -/
def RE.cats : List RE → RE
  | [] => .eps
  | r :: rs => .cat r (RE.cats rs)

/-- Word character class of the email regex (letters, digits, underscore). -/
def isWordChar (c : Char) : Bool :=
  ('a' ≤ c && c ≤ 'z') || ('A' ≤ c && c ≤ 'Z') || ('0' ≤ c && c ≤ '9') || c == '_'

/-- Digit class expression. -/
def digRE : RE := .cls isDigitChar

/-- Whitespace class expression. -/
def spaceRE : RE := .cls isJsSpace

/-- Word-character class expression. -/
def wordRE : RE := .cls isWordChar

/-- The anchored phone regex of the schema: literal parenthesis, three digits,
closing parenthesis, one whitespace, three digits, hyphen, four digits. -/
def phoneRE : RE :=
  RE.cats [RE.chr '(', digRE, digRE, digRE, RE.chr ')', spaceRE,
           digRE, digRE, digRE, RE.chr '-', digRE, digRE, digRE, digRE]

/-- Dotted-or-dashed continuation segment of the email regex. -/
def emailSegRE : RE :=
  .star (.cat (RE.opt (.cls fun c => c == '.' || c == '-')) (RE.plus wordRE))

/-- Two-or-three word characters, the top-level-domain piece of the email regex. -/
def tldRE : RE :=
  .cat wordRE (.cat wordRE (RE.opt wordRE))

/-- The anchored email regex of the schema. -/
def emailRE : RE :=
  RE.cats [RE.plus wordRE, emailSegRE, RE.chr '@', RE.plus wordRE, emailSegRE,
           RE.plus (.cat (RE.chr '.') tldRE)]

/-- Any character accepted by an unescaped regex dot (everything except line
terminators). -/
def isDotChar (c : Char) : Bool :=
  !(c == '\n' || c == '\r' || c == Char.ofNat 0x2028 || c == Char.ofNat 0x2029)

/-- The website regex of the schema.  It is anchored only at the start, so the
unanchored tail is modelled by a trailing unconstrained star. -/
def websiteRE : RE :=
  RE.cats [RE.chr 'h', RE.chr 't', RE.chr 't', RE.chr 'p', RE.opt (RE.chr 's'),
           RE.chr ':', RE.chr '/', RE.chr '/', RE.plus (.cls isDotChar),
           .star (.cls fun _ => true)]

/-! ## Data model

`RestaurantInput` models a JSON write body: each schema-relevant field is optional,
mirroring presence or absence of the key in the request body.  `StoredRestaurant`
models a persisted document, carrying the fields the list/filter/delete logic reads. -/

/-- A JSON request body for create/update, restricted to the schema fields. -/
structure RestaurantInput where
  name : Option String := none
  street : Option String := none
  city : Option String := none
  state : Option String := none
  zipCode : Option String := none
  addressBorough : Option String := none
  borough : Option String := none
  cuisine : Option String := none
  phone : Option String := none
  email : Option String := none
  website : Option String := none
  rating : Option Rat := none
  priceRange : Option String := none
  deriving DecidableEq

/-- The keys present in the body object, as `Object.keys` would list them; the
four address sub-fields live under the single `address` key. -/
def RestaurantInput.keys (r : RestaurantInput) : List String :=
  (if r.name.isSome then ["name"] else []) ++
  (if r.street.isSome || r.city.isSome || r.state.isSome || r.zipCode.isSome ||
      r.addressBorough.isSome then ["address"] else []) ++
  (if r.borough.isSome then ["borough"] else []) ++
  (if r.cuisine.isSome then ["cuisine"] else []) ++
  (if r.phone.isSome then ["phone"] else []) ++
  (if r.email.isSome then ["email"] else []) ++
  (if r.website.isSome then ["website"] else []) ++
  (if r.rating.isSome then ["rating"] else []) ++
  (if r.priceRange.isSome then ["priceRange"] else [])

/-- A persisted restaurant document (the fields consulted by list, get and delete). -/
structure StoredRestaurant where
  id : String
  name : String
  borough : Option String
  addressBorough : Option String
  deriving DecidableEq

/-- A thrown JavaScript error as observed by the route handlers: its `name`,
`message` and (for storage duplicate-key errors) numeric `code`. -/
structure JsError where
  name : String
  message : String
  code : Option Nat
  deriving DecidableEq

/-- A plain rethrown `new Error(msg)`: name `Error`, no code. -/
def mkError (msg : String) : JsError :=
  { name := "Error", message := msg, code := none }

/-! ## Entity validator (mongoose schema rules)

Each schema path reports at most one message (its first failing rule); validation
collects the messages of all failing paths in schema order. -/

/-- The cuisine enumeration of the schema. -/
def cuisineValues : List String :=
  ["Italian", "Chinese", "Mexican", "Indian", "American", "French", "Japanese",
   "Thai", "Mediterranean", "Other"]

/-- The price-range enumeration of the schema. -/
def priceRangeValues : List String := ["$", "$$", "$$$", "$$$$"]

/-- The default message of the mongoose enum validator. -/
def enumMessage (value path : String) : String :=
  "`" ++ value ++ "` is not a valid enum value for path `" ++ path ++ "`."

/-- A required-only string path: fails exactly when the key is absent or the
trimmed value is empty. -/
def requiredOnly (v : Option String) (msg : String) : Option String :=
  match v with
  | none => some msg
  | some s => if (jsTrim s).data.isEmpty then some msg else none

/-- The `name` path: required, then maximum length 100. -/
def validateName (v : Option String) : Option String :=
  match v with
  | none => some "Restaurant name is required"
  | some s =>
    let t := jsTrim s
    if t.data.isEmpty then some "Restaurant name is required"
    else if t.data.length > 100 then some "Restaurant name cannot exceed 100 characters"
    else none

/-- The `cuisine` path: required, then membership in the enumeration. -/
def validateCuisine (v : Option String) : Option String :=
  match v with
  | none => some "Cuisine type is required"
  | some s =>
    let t := jsTrim s
    if t.data.isEmpty then some "Cuisine type is required"
    else if !(cuisineValues.contains t) then some (enumMessage t "cuisine")
    else none

/-- The `phone` path: required, then the anchored phone pattern. -/
def validatePhone (v : Option String) : Option String :=
  match v with
  | none => some "Phone number is required"
  | some s =>
    let t := jsTrim s
    if t.data.isEmpty then some "Phone number is required"
    else if !(phoneRE.matchStr t) then some "Phone number must be in format (XXX) XXX-XXXX"
    else none

/-- The `email` path: required, lower-cased by the schema setter, then the email
pattern. -/
def validateEmail (v : Option String) : Option String :=
  match v with
  | none => some "Email is required"
  | some s =>
    let t := jsLower (jsTrim s)
    if t.data.isEmpty then some "Email is required"
    else if !(emailRE.matchStr t) then some "Please enter a valid email"
    else none

/-- The optional `website` path: the pattern is skipped on an absent or empty value. -/
def validateWebsite (v : Option String) : Option String :=
  match v with
  | none => none
  | some s =>
    let t := jsTrim s
    if t.data.isEmpty then none
    else if !(websiteRE.matchStr t) then
      some "Website must be a valid URL starting with http:// or https://"
    else none

/-- The `rating` path: optional (defaulted to 1), bounded between 1 and 5. -/
def validateRating (v : Option Rat) : Option String :=
  match v with
  | none => none
  | some r =>
    if r < 1 then some "Rating must be at least 1"
    else if r > 5 then some "Rating cannot exceed 5"
    else none

/-- The `priceRange` path: optional (defaulted), membership in the enumeration. -/
def validatePriceRange (v : Option String) : Option String :=
  match v with
  | none => none
  | some s =>
    if !(priceRangeValues.contains s) then some (enumMessage s "priceRange")
    else none

/-- All field-level violations of a record, in schema path order.  The optional
borough fields and the hours/isActive paths carry no failing rule. -/
def validateRestaurant (r : RestaurantInput) : List String :=
  [validateName r.name,
   requiredOnly r.street "Street address is required",
   requiredOnly r.city "City is required",
   requiredOnly r.state "State is required",
   requiredOnly r.zipCode "Zip code is required",
   validateCuisine r.cuisine,
   validatePhone r.phone,
   validateEmail r.email,
   validateWebsite r.website,
   validateRating r.rating,
   validatePriceRange r.priceRange].filterMap id

/-- Build the stored document for an accepted record (trim setters applied). -/
def mkStored (newId : String) (d : RestaurantInput) : StoredRestaurant :=
  { id := newId
    name := jsTrim (d.name.getD "")
    borough := d.borough.map jsTrim
    addressBorough := d.addressBorough.map jsTrim }

/-! ## Query parameter validation (list route) -/

/-- A parsed query string: key/value pairs in order of appearance. -/
abbrev QueryParams := List (String × String)

/-- Value of a query parameter, as object destructuring reads it. -/
def lookupParam (q : QueryParams) (k : String) : Option String :=
  (q.find? (fun p => p.fst == k)).map (·.snd)

/-- The closed set of recognized list-route parameters. -/
def allowedParams : List String := ["page", "perPage", "borough"]

/-- The keys gathered by the rest pattern of the destructuring: every query key
outside the allowed set, in order of appearance. -/
def extraParamKeys (q : QueryParams) : List String :=
  (q.filter (fun p => !(allowedParams.contains p.fst))).map (·.fst)

/-- The unknown-parameter rejection message. -/
def invalidParamsMessage (keys : List String) : String :=
  "Invalid query parameters: " ++ jsJoin ", " keys ++
  ". Allowed parameters: " ++ jsJoin ", " allowedParams

/-- Validation of the `page` parameter: absent defaults to 1; present values must
be digit strings whose value lies in [1, 10000]. -/
def validatePage : Option String → Except String Nat
  | none => .ok 1
  | some s =>
    if !(isDigitString s) then .error "Page parameter must be a positive integer"
    else
      let n := parseIntDigits s
      if n < 1 then .error "Page parameter must be greater than 0"
      else if n > 10000 then .error "Page parameter cannot exceed 10000"
      else .ok n

/-- Validation of the `perPage` parameter: absent defaults to 10; present values
must be digit strings whose value lies in [1, 100]. -/
def validatePerPage : Option String → Except String Nat
  | none => .ok 10
  | some s =>
    if !(isDigitString s) then .error "perPage parameter must be a positive integer"
    else
      let n := parseIntDigits s
      if n < 1 then .error "perPage parameter must be greater than 0"
      else if n > 100 then .error "perPage parameter cannot exceed 100 items"
      else .ok n

/-- Validation of the `borough` parameter: absent means no filter; present values
are trimmed, then checked non-empty, at most 50 characters, and against the
character whitelist; the trimmed value becomes the filter. -/
def validateBorough : Option String → Except String (Option String)
  | none => .ok none
  | some b =>
    let trimmed := jsTrim b
    if trimmed.data.length == 0 then .error "Borough parameter cannot be empty"
    else if trimmed.data.length > 50 then .error "Borough parameter cannot exceed 50 characters"
    else if !(boroughCharsOk trimmed) then
      .error "Borough parameter can only contain letters, spaces, hyphens, and apostrophes"
    else .ok (some trimmed)

/-- The full query validation section of the list handler, in source order:
unknown-parameter check first, then `page`, then `perPage`, then `borough`. -/
def validateListQuery (q : QueryParams) : Except String (Nat × Nat × Option String) :=
  let extra := extraParamKeys q
  if extra.length > 0 then .error (invalidParamsMessage extra)
  else
    match validatePage (lookupParam q "page") with
    | .error m => .error m
    | .ok pageNum =>
      match validatePerPage (lookupParam q "perPage") with
      | .error m => .error m
      | .ok perPageNum =>
        match validateBorough (lookupParam q "borough") with
        | .error m => .error m
        | .ok boroughFilter => .ok (pageNum, perPageNum, boroughFilter)

/-! ## Database module operations -/

/-- Case-insensitive regex containment of the filter text in an optional field
(an absent field matches nothing).  For filter strings drawn from the borough
whitelist the regex has no metacharacters, so the test is substring containment. -/
def regexContainsCI (field : Option String) (pat : String) : Bool :=
  match field with
  | none => false
  | some f => charsSub (jsLower pat).data (jsLower f).data

/-- The disjunctive filter condition of the list query: the nested address
borough or the top-level borough contains the filter text case-insensitively. -/
def matchesBoroughFilter (r : StoredRestaurant) (b : String) : Bool :=
  regexContainsCI r.addressBorough b || regexContainsCI r.borough b

/-- Ascending primary-key order on stored documents. -/
def idLe (a b : StoredRestaurant) : Bool :=
  charListLe a.id.data b.id.data

/-- `db.getAllRestaurants(page, perPage, borough)`: coerce falsy page/perPage to
their defaults, guard the ranges (violations are wrapped by the catch clause),
filter by borough when set, sort ascending by identifier, skip `(page-1)*perPage`
and return at most `perPage` documents. -/
def getAllRestaurants (store : List StoredRestaurant) (page perPage : Nat)
    (borough : Option String) : Except JsError (List StoredRestaurant) :=
  let pageNum := if page == 0 then 1 else page
  let limitNum := if perPage == 0 then 10 else perPage
  if pageNum < 1 then
    .error (mkError "Database error while fetching restaurants: Page number must be greater than 0")
  else if limitNum < 1 || limitNum > 100 then
    .error (mkError "Database error while fetching restaurants: Items per page must be between 1 and 100")
  else
    let skip := (pageNum - 1) * limitNum
    let matched :=
      match borough with
      | none => store
      | some b => store.filter (fun r => matchesBoroughFilter r b)
    let sorted := matched.mergeSort idLe
    .ok ((sorted.drop skip).take limitNum)

/-- Lookup of a document by identifier. -/
def findById (store : List StoredRestaurant) (i : String) : Option StoredRestaurant :=
  store.find? (fun r => r.id == i)

/-- `db.getRestaurantById(Id)`: a falsy id and a malformed id are wrapped storage
errors; a missing document raises the bare not-found error. -/
def getRestaurantById (store : List StoredRestaurant) (i : String) :
    Except JsError StoredRestaurant :=
  if i.data.isEmpty then
    .error (mkError "Database error while fetching restaurant: Restaurant ID is required")
  else if !(isValidObjectId i) then
    .error (mkError "Invalid restaurant ID format")
  else
    match findById store i with
    | none => .error (mkError "Restaurant not found")
    | some r => .ok r

/-- `db.addNewRestaurant(data)`: schema validation aggregates every violated
field message into one wrapped error; otherwise the document is stored with the
identifier assigned by the storage engine. -/
def addNewRestaurant (store : List StoredRestaurant) (data : RestaurantInput)
    (newId : String) : Except JsError (StoredRestaurant × List StoredRestaurant) :=
  let msgs := validateRestaurant data
  if !msgs.isEmpty then
    .error (mkError ("Validation failed: " ++ jsJoin ", " msgs))
  else
    let r := mkStored newId data
    .ok (r, store ++ [r])

/-- `db.updateRestaurantById(data, Id)`: malformed ids and validation failures
are raised before the existence check; a missing document raises the bare
not-found error; otherwise the document is overwritten in place. -/
def updateRestaurantById (store : List StoredRestaurant) (data : RestaurantInput)
    (i : String) : Except JsError (StoredRestaurant × List StoredRestaurant) :=
  if !(isValidObjectId i) then
    .error (mkError "Invalid restaurant ID format")
  else
    let msgs := validateRestaurant data
    if !msgs.isEmpty then
      .error (mkError ("Validation failed: " ++ jsJoin ", " msgs))
    else
      match findById store i with
      | none => .error (mkError "Restaurant not found")
      | some _ =>
        let newR := mkStored i data
        .ok (newR, store.map (fun x => if x.id == i then newR else x))

/-- `db.deleteRestaurantById(Id)`: a falsy id and a malformed id raise as in
lookup; a missing document raises the bare not-found error; otherwise the
matching document is removed. -/
def deleteRestaurantById (store : List StoredRestaurant) (i : String) :
    Except JsError (StoredRestaurant × List StoredRestaurant) :=
  if i.data.isEmpty then
    .error (mkError "Database error while deleting restaurant: Restaurant ID is required")
  else if !(isValidObjectId i) then
    .error (mkError "Invalid restaurant ID format")
  else
    match findById store i with
    | none => .error (mkError "Restaurant not found")
    | some r => .ok (r, store.eraseP (fun x => x.id == i))

/-! ## Route handlers and response envelopes

Each handler returns its wire response together with a flag recording whether the
repository was invoked; the mutating handlers also return the resulting store. -/

/-- The pagination block of a successful list response. -/
structure Pagination where
  page : Nat
  perPage : Nat
  totalReturned : Nat
  hasMore : Bool
  deriving DecidableEq

/-- The response of the list route. -/
inductive ListResponse where
  | badRequest (message : String)
  | okList (data : List StoredRestaurant) (pagination : Pagination)
      (filter : Option String) (queryEcho : Nat × Nat × Option String)
  | serverError (message : String)
  deriving DecidableEq

/-- HTTP status of a list response. -/
def ListResponse.status : ListResponse → Nat
  | .badRequest _ => 400
  | .okList _ _ _ _ => 200
  | .serverError _ => 500

/-- JavaScript truthiness of the borough filter value. -/
def jsTruthy : Option String → Bool
  | none => false
  | some s => !s.data.isEmpty

/-- `GET /api/restaurants`: validate the query, call the repository, and shape
the success envelope; a repository failure becomes a 500.  The boolean records
whether the repository was called. -/
def listHandler (store : List StoredRestaurant) (q : QueryParams) :
    ListResponse × Bool :=
  match validateListQuery q with
  | .error msg => (.badRequest msg, false)
  | .ok (pageNum, perPageNum, boroughFilter) =>
    match getAllRestaurants store pageNum perPageNum boroughFilter with
    | .error _ => (.serverError "Internal server error while fetching restaurants", true)
    | .ok restaurants =>
      let totalReturned := restaurants.length
      let hasMore := totalReturned == perPageNum
      (.okList restaurants
        { page := pageNum, perPage := perPageNum,
          totalReturned := totalReturned, hasMore := hasMore }
        (if jsTruthy boroughFilter then boroughFilter else none)
        (pageNum, perPageNum, boroughFilter), true)

/-- The response of an item route (get, create, update, delete). -/
inductive ItemResponse where
  | badRequest (message : String)
  | okItem (data : StoredRestaurant) (message : Option String)
  | created (data : StoredRestaurant) (message : String)
  | notFound (message : String)
  | noContent
  | serverError (message : String)
  deriving DecidableEq

/-- HTTP status of an item response (`noContent` carries an empty body). -/
def ItemResponse.status : ItemResponse → Nat
  | .badRequest _ => 400
  | .okItem _ _ => 200
  | .created _ _ => 201
  | .notFound _ => 404
  | .noContent => 204
  | .serverError _ => 500

/-- The 404 envelope message, which embeds the requested id. -/
def notFoundMessage (i : String) : String :=
  "Restaurant with ID " ++ i ++ " not found"

/-- The catch clause of the get-by-id handler: 404 exactly when the error message
contains the text `not found`, otherwise 500. -/
def getByIdCatch (i : String) (e : JsError) : ItemResponse :=
  if jsIncludes e.message "not found" then .notFound (notFoundMessage i)
  else .serverError "Internal server error while fetching restaurant"

/-- `GET /api/restaurants/:id`. -/
def getByIdHandler (store : List StoredRestaurant) (i : String) :
    ItemResponse × Bool :=
  if !(isValidObjectId i) then (.badRequest "Invalid restaurant ID format", false)
  else
    match getRestaurantById store i with
    | .ok r => (.okItem r none, true)
    | .error e => (getByIdCatch i e, true)

/-- The validation-error test of the create catch clause: message substrings
`validation`, `required`, `duplicate`, or the `ValidationError` name. -/
def postValidMatch (e : JsError) : Bool :=
  jsIncludes e.message "validation" || jsIncludes e.message "required" ||
  jsIncludes e.message "duplicate" || e.name == "ValidationError"

/-- The catch clause of the create handler. -/
def postCatch (e : JsError) : ItemResponse :=
  if postValidMatch e then .badRequest ("Validation error: " ++ e.message)
  else if e.code == some 11000 then
    .badRequest "Restaurant with this information already exists"
  else .serverError "Internal server error while creating restaurant"

/-- `POST /api/restaurants`: an absent or key-less body is rejected before the
repository is called; `newId` is the identifier the storage engine would assign. -/
def postHandler (store : List StoredRestaurant) (body : Option RestaurantInput)
    (newId : String) : ItemResponse × Bool × List StoredRestaurant :=
  match body with
  | none => (.badRequest "Request body is required to create a restaurant", false, store)
  | some data =>
    if data.keys.isEmpty then
      (.badRequest "Request body is required to create a restaurant", false, store)
    else
      match addNewRestaurant store data newId with
      | .ok (r, store2) => (.created r "Restaurant created successfully", true, store2)
      | .error e => (postCatch e, true, store)

/-- The validation-error test of the update catch clause: message substrings
`validation`, `required`, or the `ValidationError` name. -/
def putValidMatch (e : JsError) : Bool :=
  jsIncludes e.message "validation" || jsIncludes e.message "required" ||
  e.name == "ValidationError"

/-- The catch clause of the update handler: the not-found test runs first. -/
def putCatch (i : String) (e : JsError) : ItemResponse :=
  if jsIncludes e.message "not found" then .notFound (notFoundMessage i)
  else if putValidMatch e then .badRequest ("Validation error: " ++ e.message)
  else .serverError "Internal server error while updating restaurant"

/-- `PUT /api/restaurants/:id`: id format first, then the body check, then the
repository overwrite. -/
def putHandler (store : List StoredRestaurant) (i : String)
    (body : Option RestaurantInput) : ItemResponse × Bool × List StoredRestaurant :=
  if !(isValidObjectId i) then
    (.badRequest "Invalid restaurant ID format", false, store)
  else
    match body with
    | none => (.badRequest "Request body is required to update a restaurant", false, store)
    | some data =>
      if data.keys.isEmpty then
        (.badRequest "Request body is required to update a restaurant", false, store)
      else
        match updateRestaurantById store data i with
        | .ok (r, store2) => (.okItem r (some "Restaurant updated successfully"), true, store2)
        | .error e => (putCatch i e, true, store)

/-- The catch clause of the delete handler. -/
def deleteCatch (i : String) (e : JsError) : ItemResponse :=
  if jsIncludes e.message "not found" then .notFound (notFoundMessage i)
  else .serverError "Internal server error while deleting restaurant"

/-- `DELETE /api/restaurants/:id`: id format first, then the repository delete;
success is a 204 with no body. -/
def deleteHandler (store : List StoredRestaurant) (i : String) :
    ItemResponse × Bool × List StoredRestaurant :=
  if !(isValidObjectId i) then
    (.badRequest "Invalid restaurant ID format", false, store)
  else
    match deleteRestaurantById store i with
    | .ok (_, store2) => (.noContent, true, store2)
    | .error e => (deleteCatch i e, true, store)

/-! ## Helper lemmas -/

/-- The boolean prefix test agrees with the prefix relation. -/
theorem charsPre_iff (as bs : List Char) : charsPre as bs = true ↔ as <+: bs := by
  induction as generalizing bs with
  | nil => simp [charsPre, List.nil_prefix]
  | cons a as ih =>
    cases bs with
    | nil => simp [charsPre]
    | cons b bs => simp [charsPre, ih, List.cons_prefix_cons, beq_iff_eq]

/-- The boolean substring test agrees with the contiguous-sublist relation. -/
theorem charsSub_iff (sub s : List Char) : charsSub sub s = true ↔ sub <:+: s := by
  induction s with
  | nil => cases sub <;> simp [charsSub, List.infix_nil]
  | cons b t ih => simp [charsSub, charsPre_iff, ih, List.infix_cons_iff]

/-- `jsIncludes` agrees with the contiguous-sublist relation on the data. -/
theorem jsIncludes_iff (s sub : String) :
    jsIncludes s sub = true ↔ sub.data <:+: s.data :=
  charsSub_iff sub.data s.data

/-- One step of the lexicographic comparison. -/
theorem charListLe_cons (x y : Char) (xs ys : List Char) :
    charListLe (x :: xs) (y :: ys) = true ↔
      x < y ∨ (x = y ∧ charListLe xs ys = true) := by
  simp only [charListLe]
  rcases lt_trichotomy x y with h | h | h
  · simp [h]
  · subst h
    simp [lt_irrefl]
  · have h1 : ¬x < y := not_lt_of_gt h
    have h2 : x ≠ y := ne_of_gt h
    simp [h1, h, h2]

/-- The lexicographic comparison is transitive. -/
theorem charListLe_trans : ∀ a b c : List Char,
    charListLe a b = true → charListLe b c = true → charListLe a c = true
  | [], _, _, _, _ => rfl
  | _ :: _, [], _, hab, _ => by simp [charListLe] at hab
  | _ :: _, _ :: _, [], _, hbc => by simp [charListLe] at hbc
  | x :: xs, y :: ys, z :: zs, hab, hbc => by
    rw [charListLe_cons] at hab hbc ⊢
    rcases hab with h1 | ⟨rfl, h1⟩ <;> rcases hbc with h2 | ⟨rfl, h2⟩
    · exact Or.inl (h1.trans h2)
    · exact Or.inl h1
    · exact Or.inl h2
    · exact Or.inr ⟨rfl, charListLe_trans xs ys zs h1 h2⟩

/-- The lexicographic comparison is total. -/
theorem charListLe_total : ∀ a b : List Char,
    (charListLe a b || charListLe b a) = true
  | [], _ => by simp [charListLe]
  | _ :: _, [] => by simp [charListLe]
  | x :: xs, y :: ys => by
    simp only [Bool.or_eq_true, charListLe_cons]
    rcases lt_trichotomy x y with h | rfl | h
    · exact Or.inl (Or.inl h)
    · have := charListLe_total xs ys
      simp only [Bool.or_eq_true] at this
      rcases this with h | h
      · exact Or.inl (Or.inr ⟨rfl, h⟩)
      · exact Or.inr (Or.inr ⟨rfl, h⟩)
    · exact Or.inr (Or.inl h)

/-- The identifier order on documents is transitive. -/
theorem idLe_trans (a b c : StoredRestaurant) :
    idLe a b = true → idLe b c = true → idLe a c = true :=
  charListLe_trans a.id.data b.id.data c.id.data

/-- The identifier order on documents is total. -/
theorem idLe_total (a b : StoredRestaurant) : (idLe a b || idLe b a) = true :=
  charListLe_total a.id.data b.id.data

/-- Every joined element occurs contiguously inside the join. -/
theorem jsJoin_mem_sub (sep : String) :
    ∀ (l : List String) (k : String), k ∈ l → k.data <:+: (jsJoin sep l).data
  | [], k, hk => by simp at hk
  | [a], k, hk => by
    rcases List.mem_singleton.mp hk with rfl
    exact List.infix_refl _
  | a :: b :: t, k, hk => by
    have hdata : (jsJoin sep (a :: b :: t)).data =
        a.data ++ sep.data ++ (jsJoin sep (b :: t)).data := by
      show (a ++ sep ++ jsJoin sep (b :: t)).data = _
      rw [String.data_append, String.data_append]
    rcases List.mem_cons.mp hk with rfl | hk
    · rw [hdata, List.append_assoc]
      exact (List.prefix_append k.data (sep.data ++ (jsJoin sep (b :: t)).data)).isInfix
    · have ih := jsJoin_mem_sub sep (b :: t) k hk
      rw [hdata]
      exact ih.trans (List.suffix_append (a.data ++ sep.data) _).isInfix

/-- The unknown-parameter message spelled with the allowed set joined. -/
theorem invalidParamsMessage_eq (keys : List String) :
    invalidParamsMessage keys =
      "Invalid query parameters: " ++ jsJoin ", " keys ++
      ". Allowed parameters: page, perPage, borough" := by
  unfold invalidParamsMessage
  rw [String.append_assoc]
  congr 1

/-- Every offending key occurs contiguously inside the unknown-parameter message. -/
theorem invalidParamsMessage_names (keys : List String) (k : String) (hk : k ∈ keys) :
    k.data <:+: (invalidParamsMessage keys).data := by
  have h1 := jsJoin_mem_sub ", " keys k hk
  have h2 : (invalidParamsMessage keys).data =
      "Invalid query parameters: ".data ++ (jsJoin ", " keys).data ++
      ". Allowed parameters: page, perPage, borough".data := by
    rw [invalidParamsMessage_eq, String.data_append, String.data_append]
  rw [h2]
  exact h1.trans (List.infix_append _ _ _)

/-- A failed query validation makes the list handler answer 400 with that message
and never reach the repository. -/
theorem listHandler_of_error (store : List StoredRestaurant) (q : QueryParams)
    (m : String) (h : validateListQuery q = .error m) :
    listHandler store q = (.badRequest m, false) := by
  unfold listHandler
  rw [h]

/-- Acceptance characterization of the `page` parameter. -/
theorem validatePage_ok_iff (s : String) (n : Nat) :
    validatePage (some s) = .ok n ↔
      isDigitString s = true ∧ n = parseIntDigits s ∧ 1 ≤ n ∧ n ≤ 10000 := by
  unfold validatePage
  cases hd : isDigitString s with
  | false => simp [hd]
  | true =>
    simp only [hd, Bool.not_true, Bool.false_eq_true, if_false, true_and]
    split_ifs with h1 h2
    · simp
      omega
    · simp
      omega
    · simp only [Except.ok.injEq]
      constructor
      · intro h
        omega
      · intro h
        omega

/-- Acceptance characterization of the `perPage` parameter. -/
theorem validatePerPage_ok_iff (s : String) (n : Nat) :
    validatePerPage (some s) = .ok n ↔
      isDigitString s = true ∧ n = parseIntDigits s ∧ 1 ≤ n ∧ n ≤ 100 := by
  unfold validatePerPage
  cases hd : isDigitString s with
  | false => simp [hd]
  | true =>
    simp only [hd, Bool.not_true, Bool.false_eq_true, if_false, true_and]
    split_ifs with h1 h2
    · simp
      omega
    · simp
      omega
    · simp only [Except.ok.injEq]
      constructor
      · intro h
        omega
      · intro h
        omega

/-- Any accepted page value lies in the documented range. -/
theorem validatePage_ok_bounds (o : Option String) (n : Nat)
    (h : validatePage o = .ok n) : 1 ≤ n ∧ n ≤ 10000 := by
  cases o with
  | none =>
    simp [validatePage] at h
    omega
  | some s =>
    rw [validatePage_ok_iff] at h
    exact ⟨h.2.2.1, h.2.2.2⟩

/-- Any accepted perPage value lies in the documented range. -/
theorem validatePerPage_ok_bounds (o : Option String) (n : Nat)
    (h : validatePerPage o = .ok n) : 1 ≤ n ∧ n ≤ 100 := by
  cases o with
  | none =>
    simp [validatePerPage] at h
    omega
  | some s =>
    rw [validatePerPage_ok_iff] at h
    exact ⟨h.2.2.1, h.2.2.2⟩

/-- Acceptance characterization of the `borough` parameter. -/
theorem validateBorough_ok_iff (b : String) (f : Option String) :
    validateBorough (some b) = .ok f ↔
      ((jsTrim b).data ≠ [] ∧ (jsTrim b).data.length ≤ 50 ∧
       boroughCharsOk (jsTrim b) = true ∧ f = some (jsTrim b)) := by
  simp only [validateBorough]
  split_ifs with h1 h2 h3
  · simp only [beq_iff_eq, List.length_eq_zero] at h1
    simp [h1]
  · constructor
    · intro h
      simp at h
    · rintro ⟨-, hlen, -, -⟩
      omega
  · constructor
    · intro h
      simp at h
    · rintro ⟨-, -, hok, -⟩
      simp [hok] at h3
  · simp only [Except.ok.injEq]
    constructor
    · rintro rfl
      refine ⟨?_, by omega, ?_, rfl⟩
      · intro hnil
        exact h1 (by simp [hnil])
      · simpa using h3
    · rintro ⟨-, -, -, rfl⟩
      rfl

/-- An accepted borough filter is a non-empty string. -/
theorem validateBorough_ok_nonempty (o : Option String) (t : String)
    (h : validateBorough o = .ok (some t)) : t.data ≠ [] := by
  cases o with
  | none => simp [validateBorough] at h
  | some b =>
    rw [validateBorough_ok_iff] at h
    obtain ⟨hne, -, -, hf⟩ := h
    obtain rfl : t = jsTrim b := by
      simpa using hf
    exact hne

/-- Acceptance characterization of the whole query-validation section. -/
theorem validateListQuery_ok_iff (q : QueryParams) (p pp : Nat) (bf : Option String) :
    validateListQuery q = .ok (p, pp, bf) ↔
      extraParamKeys q = [] ∧ validatePage (lookupParam q "page") = .ok p ∧
      validatePerPage (lookupParam q "perPage") = .ok pp ∧
      validateBorough (lookupParam q "borough") = .ok bf := by
  unfold validateListQuery
  by_cases hq : extraParamKeys q = []
  · simp only [hq, List.length_nil, gt_iff_lt, lt_irrefl, if_false, true_and]
    cases hp : validatePage (lookupParam q "page") with
    | error m => simp [hp]
    | ok pv =>
      cases hpp : validatePerPage (lookupParam q "perPage") with
      | error m => simp [hpp]
      | ok ppv =>
        cases hb : validateBorough (lookupParam q "borough") with
        | error m => simp [hb]
        | ok bfv =>
          simp only [Except.ok.injEq, Prod.mk.injEq]
  · have : 0 < (extraParamKeys q).length := List.length_pos.mpr hq
    simp [if_pos this, hq]

/-- With no unknown keys, a failing page validation is the reported error. -/
theorem validateListQuery_page_error (q : QueryParams) (m : String)
    (hq : extraParamKeys q = []) (h : validatePage (lookupParam q "page") = .error m) :
    validateListQuery q = .error m := by
  unfold validateListQuery
  simp [hq, h]

/-- With no unknown keys and an accepted page, a failing perPage validation is the
reported error. -/
theorem validateListQuery_perPage_error (q : QueryParams) (m : String) (pv : Nat)
    (hq : extraParamKeys q = []) (hp : validatePage (lookupParam q "page") = .ok pv)
    (h : validatePerPage (lookupParam q "perPage") = .error m) :
    validateListQuery q = .error m := by
  unfold validateListQuery
  simp [hq, hp, h]

/-- With no unknown keys and accepted page and perPage, a failing borough
validation is the reported error. -/
theorem validateListQuery_borough_error (q : QueryParams) (m : String) (pv ppv : Nat)
    (hq : extraParamKeys q = []) (hp : validatePage (lookupParam q "page") = .ok pv)
    (hpp : validatePerPage (lookupParam q "perPage") = .ok ppv)
    (h : validateBorough (lookupParam q "borough") = .error m) :
    validateListQuery q = .error m := by
  unfold validateListQuery
  simp [hq, hp, hpp, h]

/-! ## Claims -/

/-- C1: a list request whose query string carries any key outside the allowed set
is rejected with the single unknown-parameter message; that message names every
offending key and the allowed set; the check precedes every per-parameter
validation and the repository is never called; in particular the query
`foo=1, page=0` reports the unknown-parameter error, not the page error. -/
theorem c1_unknown_params_checked_first (store : List StoredRestaurant)
    (q : QueryParams) (h : extraParamKeys q ≠ []) :
    validateListQuery q = .error (invalidParamsMessage (extraParamKeys q))
  ∧ listHandler store q = (.badRequest (invalidParamsMessage (extraParamKeys q)), false)
  ∧ (∀ k ∈ extraParamKeys q, k.data <:+: (invalidParamsMessage (extraParamKeys q)).data)
  ∧ invalidParamsMessage (extraParamKeys q) =
      "Invalid query parameters: " ++ jsJoin ", " (extraParamKeys q) ++
      ". Allowed parameters: page, perPage, borough"
  ∧ listHandler store [("foo", "1"), ("page", "0")] =
      (.badRequest "Invalid query parameters: foo. Allowed parameters: page, perPage, borough",
       false) := by
  have hv : validateListQuery q = .error (invalidParamsMessage (extraParamKeys q)) := by
    unfold validateListQuery
    have hl : 0 < (extraParamKeys q).length := List.length_pos.mpr h
    simp [if_pos hl]
  refine ⟨hv, listHandler_of_error store q _ hv, ?_, invalidParamsMessage_eq _, ?_⟩
  · intro k hk
    exact invalidParamsMessage_names (extraParamKeys q) k hk
  · apply listHandler_of_error
    rfl

/-- C1 witness: the concrete query `foo=1, page=0` has an offending key and is
rejected with the unknown-parameter message. -/
theorem c1_witness :
    validateListQuery [("foo", "1"), ("page", "0")] =
      .error (invalidParamsMessage (extraParamKeys [("foo", "1"), ("page", "0")])) :=
  (c1_unknown_params_checked_first [] [("foo", "1"), ("page", "0")] (by decide)).1

/-- C2: with no unknown keys, an absent page defaults to 1 and an absent perPage
defaults to 10; a present page is accepted exactly when it is all digits with
value in [1, 10000] and perPage likewise with value in [1, 100]; each kind of
violation yields its own distinct message, failing validations surface as the
reported error, and a reported error means a 400 answer with the repository
never called. -/
theorem c2_page_perpage_validation (store : List StoredRestaurant) (q : QueryParams)
    (s : String) (n : Nat) (hq : extraParamKeys q = []) :
    validatePage none = .ok 1
  ∧ validatePerPage none = .ok 10
  ∧ (validatePage (some s) = .ok n ↔
      isDigitString s = true ∧ n = parseIntDigits s ∧ 1 ≤ n ∧ n ≤ 10000)
  ∧ (validatePerPage (some s) = .ok n ↔
      isDigitString s = true ∧ n = parseIntDigits s ∧ 1 ≤ n ∧ n ≤ 100)
  ∧ (isDigitString s = false →
      validatePage (some s) = .error "Page parameter must be a positive integer" ∧
      validatePerPage (some s) = .error "perPage parameter must be a positive integer")
  ∧ (isDigitString s = true → parseIntDigits s = 0 →
      validatePage (some s) = .error "Page parameter must be greater than 0" ∧
      validatePerPage (some s) = .error "perPage parameter must be greater than 0")
  ∧ (isDigitString s = true → parseIntDigits s > 10000 →
      validatePage (some s) = .error "Page parameter cannot exceed 10000")
  ∧ (isDigitString s = true → parseIntDigits s > 100 →
      validatePerPage (some s) = .error "perPage parameter cannot exceed 100 items")
  ∧ (∀ m, validatePage (lookupParam q "page") = .error m →
      validateListQuery q = .error m)
  ∧ (∀ m pv, validatePage (lookupParam q "page") = .ok pv →
      validatePerPage (lookupParam q "perPage") = .error m →
      validateListQuery q = .error m)
  ∧ (∀ m, validateListQuery q = .error m → listHandler store q = (.badRequest m, false))
  ∧ ("Page parameter must be a positive integer" ≠ "Page parameter must be greater than 0"
      ∧ "Page parameter must be a positive integer" ≠ "Page parameter cannot exceed 10000"
      ∧ "Page parameter must be greater than 0" ≠ "Page parameter cannot exceed 10000") := by
  refine ⟨rfl, rfl, validatePage_ok_iff s n, validatePerPage_ok_iff s n, ?_, ?_, ?_, ?_,
    fun m hm => validateListQuery_page_error q m hq hm,
    fun m pv hp hm => validateListQuery_perPage_error q m pv hq hp hm,
    fun m hm => listHandler_of_error store q m hm, by decide⟩
  · intro hd
    constructor
    · unfold validatePage
      simp [hd]
    · unfold validatePerPage
      simp [hd]
  · intro hd h0
    constructor
    · unfold validatePage
      simp [hd, h0]
    · unfold validatePerPage
      simp [hd, h0]
  · intro hd hbig
    unfold validatePage
    have h1 : ¬parseIntDigits s < 1 := by omega
    simp [hd, h1, hbig]
  · intro hd hbig
    unfold validatePerPage
    have h1 : ¬parseIntDigits s < 1 := by omega
    simp [hd, h1, hbig]

/-- C2 witness: the concrete query `page=0` is rejected with the page range
message, with no repository call. -/
theorem c2_witness :
    listHandler [] [("page", "0")] =
      (.badRequest "Page parameter must be greater than 0", false) := by
  have h := c2_page_perpage_validation [] [("page", "0")] "0" 1 (by decide)
  have hpage := (h.2.2.2.2.2.1 (by decide) (by decide)).1
  have herr := h.2.2.2.2.2.2.2.2.1 _ (by exact hpage)
  exact h.2.2.2.2.2.2.2.2.2.2.1 _ herr

/-- C3: with no unknown keys and valid page and perPage, an absent borough means
no filter; a present borough is accepted exactly when its trimmed value is
non-empty, at most 50 characters and drawn from the letter/whitespace/hyphen/
apostrophe whitelist; each violated rule has its own distinct message which is
the reported error; on acceptance the trimmed value is the filter handed to the
query. -/
theorem c3_borough_validation (store : List StoredRestaurant) (q : QueryParams)
    (b : String) (f : Option String) (p pp : Nat) (hq : extraParamKeys q = []) :
    validateBorough none = .ok none
  ∧ (validateBorough (some b) = .ok f ↔
      ((jsTrim b).data ≠ [] ∧ (jsTrim b).data.length ≤ 50 ∧
       boroughCharsOk (jsTrim b) = true ∧ f = some (jsTrim b)))
  ∧ ((jsTrim b).data = [] →
      validateBorough (some b) = .error "Borough parameter cannot be empty")
  ∧ ((jsTrim b).data.length > 50 →
      validateBorough (some b) = .error "Borough parameter cannot exceed 50 characters")
  ∧ ((jsTrim b).data ≠ [] → (jsTrim b).data.length ≤ 50 →
      boroughCharsOk (jsTrim b) = false →
      validateBorough (some b) = .error
        "Borough parameter can only contain letters, spaces, hyphens, and apostrophes")
  ∧ (validatePage (lookupParam q "page") = .ok p →
      validatePerPage (lookupParam q "perPage") = .ok pp →
      validateBorough (lookupParam q "borough") = .ok f →
      validateListQuery q = .ok (p, pp, f))
  ∧ (∀ m, validatePage (lookupParam q "page") = .ok p →
      validatePerPage (lookupParam q "perPage") = .ok pp →
      validateBorough (lookupParam q "borough") = .error m →
      listHandler store q = (.badRequest m, false))
  ∧ ("Borough parameter cannot be empty" ≠ "Borough parameter cannot exceed 50 characters"
      ∧ "Borough parameter cannot be empty" ≠
          "Borough parameter can only contain letters, spaces, hyphens, and apostrophes"
      ∧ "Borough parameter cannot exceed 50 characters" ≠
          "Borough parameter can only contain letters, spaces, hyphens, and apostrophes") := by
  refine ⟨rfl, validateBorough_ok_iff b f, ?_, ?_, ?_, ?_, ?_, by decide⟩
  · intro hnil
    simp only [validateBorough]
    have : (jsTrim b).data.length = 0 := by simp [hnil]
    simp [this]
  · intro hlen
    simp only [validateBorough]
    rw [if_neg (by simp only [beq_iff_eq]; omega), if_pos hlen]
  · intro hne hlen hbad
    have hlen0 : (jsTrim b).data.length ≠ 0 := fun hz => hne (List.length_eq_zero.mp hz)
    simp only [validateBorough]
    rw [if_neg (by simp only [beq_iff_eq]; exact hlen0), if_neg (by omega),
      if_pos (by simp [hbad])]
  · intro hp hpp hb
    rw [validateListQuery_ok_iff]
    exact ⟨hq, hp, hpp, hb⟩
  · intro m hp hpp hb
    exact listHandler_of_error store q m (validateListQuery_borough_error q m p pp hq hp hpp hb)

/-- C3 witness: a borough of two spaces trims to the empty string and is rejected
with the distinct empty-borough message. -/
theorem c3_witness :
    validateBorough (some "  ") = .error "Borough parameter cannot be empty" :=
  (c3_borough_validation [] [] "  " none 1 10 (by decide)).2.2.1 (by decide)

/-- The sorted, paged slice produced by the repository under validated inputs. -/
theorem getAllRestaurants_ok_eq (store : List StoredRestaurant) (p pp : Nat)
    (bf : Option String) (hp : 1 ≤ p) (hpp1 : 1 ≤ pp) (hpp2 : pp ≤ 100) :
    getAllRestaurants store p pp bf =
      .ok ((((match bf with
              | none => store
              | some b => store.filter (fun r => matchesBoroughFilter r b)).mergeSort
                idLe).drop ((p - 1) * pp)).take pp) := by
  unfold getAllRestaurants
  have hp0 : (p == 0) = false := by
    simp
    omega
  have hpp0 : (pp == 0) = false := by
    simp
    omega
  have h1 : ¬p < 1 := by omega
  have h2 : ¬(pp < 1 || pp > 100) = true := by
    simp
    omega
  simp only [hp0, hpp0, if_false, Bool.false_eq_true]
  simp [h1, h2]
  omega

/-- C4: once the query validates, the list handler answers 200 after calling the
repository, and the success envelope uses the normalized page and perPage, sets
totalReturned to the length of the data array, sets hasMore exactly when the page
came back full, echoes the applied borough filter, or no filter when none was
applied, and echoes the normalized query. -/
theorem c4_success_envelope (store : List StoredRestaurant) (q : QueryParams)
    (p pp : Nat) (bf : Option String)
    (hv : validateListQuery q = .ok (p, pp, bf)) :
    ((listHandler store q).1).status = 200
  ∧ (listHandler store q).2 = true
  ∧ (∀ data pag fil qe, (listHandler store q).1 = .okList data pag fil qe →
      pag.page = p ∧ pag.perPage = pp ∧ pag.totalReturned = data.length
      ∧ (pag.hasMore = true ↔ data.length = pp)
      ∧ fil = bf ∧ qe = (p, pp, bf)) := by
  obtain ⟨hq, hp, hpp, hb⟩ := (validateListQuery_ok_iff q p pp bf).mp hv
  obtain ⟨hp1, hp2⟩ := validatePage_ok_bounds _ p hp
  obtain ⟨hq1, hq2⟩ := validatePerPage_ok_bounds _ pp hpp
  have hget := getAllRestaurants_ok_eq store p pp bf hp1 hq1 hq2
  have hfil : (if jsTruthy bf then bf else none) = bf := by
    cases bf with
    | none => simp [jsTruthy]
    | some t =>
      have := validateBorough_ok_nonempty _ t hb
      simp [jsTruthy, this]
  have hlh : listHandler store q =
      (.okList ((((match bf with
              | none => store
              | some b => store.filter (fun r => matchesBoroughFilter r b)).mergeSort
                idLe).drop ((p - 1) * pp)).take pp)
        { page := p, perPage := pp,
          totalReturned := ((((match bf with
              | none => store
              | some b => store.filter (fun r => matchesBoroughFilter r b)).mergeSort
                idLe).drop ((p - 1) * pp)).take pp).length,
          hasMore := ((((match bf with
              | none => store
              | some b => store.filter (fun r => matchesBoroughFilter r b)).mergeSort
                idLe).drop ((p - 1) * pp)).take pp).length == pp }
        (if jsTruthy bf then bf else none) (p, pp, bf), true) := by
    unfold listHandler
    rw [hv]
    dsimp only
    rw [hget]
  refine ⟨by rw [hlh]; rfl, by rw [hlh], ?_⟩
  intro data pag fil qe hres
  rw [hlh] at hres
  simp only [ListResponse.okList.injEq] at hres
  obtain ⟨rfl, rfl, rfl, rfl⟩ := hres
  refine ⟨rfl, rfl, rfl, beq_iff_eq, hfil, rfl⟩

/-- C4 witness: the empty query validates to defaults and the handler answers 200. -/
theorem c4_witness : ((listHandler [] ([] : QueryParams)).1).status = 200 :=
  (c4_success_envelope [] [] 1 10 none (by rfl)).1

/-- A small concrete store used by the witnesses. -/
def sampleStore : List StoredRestaurant :=
  [{ id := "507f1f77bcf86cd799439011", name := "Alpha",
     borough := some "Manhattan", addressBorough := none },
   { id := "507f1f77bcf86cd799439012", name := "Beta",
     borough := none, addressBorough := some "Brooklyn" }]

/-- C5: under validated paging and a whitelisted borough filter, the repository
call returns exactly the documents of the store whose top-level or nested
borough contains the filter text case-insensitively, sorted by ascending
identifier, with `(page-1)*perPage` matches skipped and at most `perPage`
returned. -/
theorem c5_borough_filter_paging (store : List StoredRestaurant) (p pp : Nat)
    (b : String) (hp : 1 ≤ p) (hpp1 : 1 ≤ pp) (hpp2 : pp ≤ 100)
    (hw : boroughCharsOk b = true) :
    getAllRestaurants store p pp (some b) =
      .ok ((((store.filter (fun r => matchesBoroughFilter r b)).mergeSort idLe).drop
        ((p - 1) * pp)).take pp)
  ∧ ((store.filter (fun r => matchesBoroughFilter r b)).mergeSort idLe).Perm
      (store.filter (fun r => matchesBoroughFilter r b))
  ∧ List.Pairwise (fun a c => idLe a c = true)
      ((store.filter (fun r => matchesBoroughFilter r b)).mergeSort idLe)
  ∧ (∀ l, getAllRestaurants store p pp (some b) = .ok l →
      l.length ≤ pp ∧ ∀ r ∈ l, r ∈ store ∧ matchesBoroughFilter r b = true)
  ∧ (∀ r : StoredRestaurant, matchesBoroughFilter r b = true ↔
      ((∃ f, r.addressBorough = some f ∧ (jsLower b).data <:+: (jsLower f).data) ∨
       (∃ f, r.borough = some f ∧ (jsLower b).data <:+: (jsLower f).data))) := by
  have heq := getAllRestaurants_ok_eq store p pp (some b) hp hpp1 hpp2
  refine ⟨heq, List.mergeSort_perm _ _, List.sorted_mergeSort idLe_trans idLe_total _,
    ?_, ?_⟩
  · intro l hl
    rw [heq] at hl
    obtain rfl : l = (((store.filter (fun r => matchesBoroughFilter r b)).mergeSort
        idLe).drop ((p - 1) * pp)).take pp := by
      simpa using hl.symm
    constructor
    · rw [List.length_take]
      exact min_le_left _ _
    · intro r hr
      have hsub : ((((store.filter (fun r => matchesBoroughFilter r b)).mergeSort
          idLe).drop ((p - 1) * pp)).take pp).Sublist
          ((store.filter (fun r => matchesBoroughFilter r b)).mergeSort idLe) :=
        (List.take_sublist _ _).trans (List.drop_sublist _ _)
      have h1 := hsub.mem hr
      have h2 := (List.mergeSort_perm
        (store.filter (fun r => matchesBoroughFilter r b)) idLe).mem_iff.mp h1
      exact ⟨(List.mem_filter.mp h2).1, (List.mem_filter.mp h2).2⟩
  · intro r
    simp only [matchesBoroughFilter, regexContainsCI, Bool.or_eq_true]
    rcases hab : r.addressBorough with _ | g <;> rcases hbb : r.borough with _ | g2 <;>
      simp [charsSub_iff]

/-- C5 witness: a concrete filtered page over the sample store. -/
theorem c5_witness :
    getAllRestaurants sampleStore 1 1 (some "man") =
      .ok ((((sampleStore.filter (fun r => matchesBoroughFilter r "man")).mergeSort
        idLe).drop ((1 - 1) * 1)).take 1) :=
  (c5_borough_filter_paging sampleStore 1 1 "man" (by decide) (by decide) (by decide)
    (by decide)).1

/-- C6: every item route rejects an id that is not 24 hexadecimal characters with
a 400 `Invalid restaurant ID format` answer, before any repository call and
leaving the store unchanged; in particular `not-a-valid-id` is rejected. -/
theorem c6_malformed_id_rejected (store : List StoredRestaurant) (i : String)
    (body : Option RestaurantInput) (hid : isValidObjectId i = false) :
    getByIdHandler store i = (.badRequest "Invalid restaurant ID format", false)
  ∧ putHandler store i body = (.badRequest "Invalid restaurant ID format", false, store)
  ∧ deleteHandler store i = (.badRequest "Invalid restaurant ID format", false, store)
  ∧ isValidObjectId "not-a-valid-id" = false
  ∧ getByIdHandler store "not-a-valid-id" =
      (.badRequest "Invalid restaurant ID format", false) := by
  have hbad : isValidObjectId "not-a-valid-id" = false := by decide
  refine ⟨?_, ?_, ?_, hbad, ?_⟩
  · unfold getByIdHandler
    simp [hid]
  · unfold putHandler
    simp [hid]
  · unfold deleteHandler
    simp [hid]
  · unfold getByIdHandler
    simp [hbad]

/-- C6 witness: the concrete malformed id from the specification scenario. -/
theorem c6_witness :
    getByIdHandler [] "not-a-valid-id" =
      (.badRequest "Invalid restaurant ID format", false) :=
  (c6_malformed_id_rejected [] "not-a-valid-id" none (by decide)).1

/-- C7: deleting a well-formed id present in the store answers 204 with an empty
body and removes the entity (with unique identifiers nothing with that id
remains); on any store without the id, the same delete answers 404 with a
message embedding the id and leaves the store unchanged, so repeating the delete
after the first 204 yields 404 every time. -/
theorem c7_delete_idempotent (store : List StoredRestaurant) (i : String)
    (hid : isValidObjectId i = true)
    (hnodup : (store.map StoredRestaurant.id).Nodup)
    (hmem : ∃ r ∈ store, r.id = i) :
    (deleteHandler store i).1 = .noContent
  ∧ (deleteHandler store i).2.1 = true
  ∧ (∀ r ∈ (deleteHandler store i).2.2, r.id ≠ i)
  ∧ (∀ store2 : List StoredRestaurant, (∀ r ∈ store2, r.id ≠ i) →
      deleteHandler store2 i = (.notFound (notFoundMessage i), true, store2))
  ∧ i.data <:+: (notFoundMessage i).data := by
  have hlen : i.data.length = 24 := by
    unfold isValidObjectId at hid
    simp only [Bool.and_eq_true, beq_iff_eq] at hid
    exact hid.1
  have hne : i.data.isEmpty = false := by
    cases hd : i.data with
    | nil => rw [hd] at hlen; simp at hlen
    | cons a t => rfl
  obtain ⟨r0, hr0mem, hr0id⟩ := hmem
  have hfind : (store.find? (fun r => r.id == i)).isSome :=
    List.find?_isSome.mpr ⟨r0, hr0mem, by simp [hr0id]⟩
  obtain ⟨a, ha⟩ := Option.isSome_iff_exists.mp hfind
  have hdel : deleteRestaurantById store i =
      .ok (a, store.eraseP (fun x => x.id == i)) := by
    unfold deleteRestaurantById findById
    simp [hne, hid, ha]
  have hdh : deleteHandler store i =
      (.noContent, true, store.eraseP (fun x => x.id == i)) := by
    unfold deleteHandler
    simp [hid, hdel]
  have hrem : ∀ r ∈ store.eraseP (fun x => x.id == i), r.id ≠ i := by
    have hpa : (fun x => x.id == i) a = true :=
      @List.find?_some _ (fun x => x.id == i) a store ha
    have hamem : a ∈ store := @List.mem_of_find?_eq_some _ (fun x => x.id == i) a store ha
    obtain ⟨w, l₁, l₂, hl₁, hw, hsplit, herase⟩ :=
      @List.exists_of_eraseP _ (fun x => x.id == i) store a hamem hpa
    rw [herase]
    intro r hr hri
    rcases List.mem_append.mp hr with h | h
    · exact hl₁ r h (by simp [hri])
    · have hmap : ((l₁ ++ w :: l₂).map StoredRestaurant.id).Nodup := by
        rw [← hsplit]
        exact hnodup
      rw [List.map_append, List.map_cons] at hmap
      have hmid := List.nodup_middle.mp hmap
      have hnotmem := (List.nodup_cons.mp hmid).1
      have hwid : w.id = i := by simpa using hw
      exact hnotmem (List.mem_append.mpr (Or.inr
        (List.mem_map.mpr ⟨r, h, hri.trans hwid.symm⟩)))
  have hnf : ∀ store2 : List StoredRestaurant, (∀ r ∈ store2, r.id ≠ i) →
      deleteHandler store2 i = (.notFound (notFoundMessage i), true, store2) := by
    intro store2 habs
    have hfind2 : store2.find? (fun r => r.id == i) = none := by
      rw [List.find?_eq_none]
      intro x hx
      simp [habs x hx]
    have hdel2 : deleteRestaurantById store2 i =
        .error (mkError "Restaurant not found") := by
      unfold deleteRestaurantById findById
      simp [hne, hid, hfind2]
    have hinc : jsIncludes (mkError "Restaurant not found").message "not found" = true := by
      decide
    unfold deleteHandler
    simp [hid, hdel2, deleteCatch, hinc]
  have hmsg : (notFoundMessage i).data =
      "Restaurant with ID ".data ++ i.data ++ " not found".data := by
    unfold notFoundMessage
    rw [String.data_append, String.data_append]
  refine ⟨by rw [hdh], by rw [hdh], ?_, hnf, ?_⟩
  · rw [hdh]
    exact hrem
  · rw [hmsg]
    exact List.infix_append _ _ _

/-- C7 witness: deleting a present id from the sample store answers 204. -/
theorem c7_witness :
    (deleteHandler sampleStore "507f1f77bcf86cd799439011").1 = .noContent :=
  (c7_delete_idempotent sampleStore "507f1f77bcf86cd799439011" (by decide) (by decide)
    (by decide)).1

/-- A create body missing the name and carrying a malformed phone; every other
field is valid. -/
def bodyMissingNameBadPhone : RestaurantInput :=
  { street := some "12 Main St", city := some "New York", state := some "NY",
    zipCode := some "10001", cuisine := some "Italian", phone := some "123",
    email := some "mario@bistro.com" }

/-- A create body whose only violation is a malformed phone. -/
def bodyBadPhoneOnly : RestaurantInput :=
  { name := some "Mario Bistro", street := some "12 Main St", city := some "New York",
    state := some "NY", zipCode := some "10001", cuisine := some "Italian",
    phone := some "123", email := some "mario@bistro.com" }

/-- C8: the entity validator aggregates every violated field message, and the
create handler answers 400 with the joined aggregate when that aggregate happens
to contain one of the matched substrings, as in the claim example of a missing
name plus a bad phone; but a validation failure whose aggregate contains none of
the substrings `validation`, `required`, `duplicate` — a malformed phone as the
only violation — is answered 500 by the create and update handlers, because the
rethrown error has name `Error` and the substring checks are case-sensitive
while the aggregate starts with capitalised `Validation failed`.  The code
therefore contradicts the claim and its own documentation. -/
theorem c8_validation_aggregation_bug :
    validateRestaurant bodyMissingNameBadPhone =
      ["Restaurant name is required", "Phone number must be in format (XXX) XXX-XXXX"]
  ∧ (postHandler [] (some bodyMissingNameBadPhone) "507f1f77bcf86cd799439011").1 =
      .badRequest "Validation error: Validation failed: Restaurant name is required, Phone number must be in format (XXX) XXX-XXXX"
  ∧ validateRestaurant bodyBadPhoneOnly =
      ["Phone number must be in format (XXX) XXX-XXXX"]
  ∧ (postHandler [] (some bodyBadPhoneOnly) "507f1f77bcf86cd799439011").1 =
      .serverError "Internal server error while creating restaurant"
  ∧ (putHandler sampleStore "507f1f77bcf86cd799439011" (some bodyBadPhoneOnly)).1 =
      .serverError "Internal server error while updating restaurant" := by
  refine ⟨by decide, by decide, by decide, by decide, by decide⟩

/-- C9: a create or update request with an absent or empty body is answered 400
with the body-required message before any repository call, and the store is
unchanged. -/
theorem c9_empty_body_rejected (store : List StoredRestaurant) (i newId : String)
    (body : Option RestaurantInput) (hid : isValidObjectId i = true)
    (hbody : body = none ∨ ∃ d, body = some d ∧ d.keys = []) :
    postHandler store body newId =
      (.badRequest "Request body is required to create a restaurant", false, store)
  ∧ putHandler store i body =
      (.badRequest "Request body is required to update a restaurant", false, store) := by
  rcases hbody with rfl | ⟨d, rfl, hk⟩
  · constructor
    · rfl
    · unfold putHandler
      simp [hid]
  · constructor
    · unfold postHandler
      simp [hk]
    · unfold putHandler
      simp [hid, hk]

/-- C9 witness: an absent create body is rejected with store untouched. -/
theorem c9_witness :
    postHandler [] none "507f1f77bcf86cd799439012" =
      (.badRequest "Request body is required to create a restaurant", false, []) :=
  (c9_empty_body_rejected [] "507f1f77bcf86cd799439011" "507f1f77bcf86cd799439012" none
    (by decide) (Or.inl rfl)).1

/-- C10: in the get, update and delete catch clauses the 404 mapping is decided
solely by whether the error message contains the text `not found` — any error,
wrapped storage errors included, with that text maps to the not-found envelope,
and any error without it maps to 500, except that the update clause first lets
errors matching its validation test map to 400; the error name and code never
influence the 404 decision. -/
theorem c10_not_found_mapping (i : String) (e : JsError) :
    (getByIdCatch i e = .notFound (notFoundMessage i) ↔
      jsIncludes e.message "not found" = true)
  ∧ ((getByIdCatch i e).status = 404 ↔ jsIncludes e.message "not found" = true)
  ∧ ((getByIdCatch i e).status = 500 ↔ jsIncludes e.message "not found" = false)
  ∧ ((deleteCatch i e).status = 404 ↔ jsIncludes e.message "not found" = true)
  ∧ (jsIncludes e.message "not found" = false →
      deleteCatch i e = .serverError "Internal server error while deleting restaurant")
  ∧ ((putCatch i e).status = 404 ↔ jsIncludes e.message "not found" = true)
  ∧ (jsIncludes e.message "not found" = false →
      ((putCatch i e).status = 400 ↔ putValidMatch e = true)
      ∧ (putValidMatch e = false →
          putCatch i e = .serverError "Internal server error while updating restaurant"))
  ∧ (∀ n c, getByIdCatch i { name := n, message := e.message, code := c } =
      getByIdCatch i e)
  ∧ (∀ n c, deleteCatch i { name := n, message := e.message, code := c } =
      deleteCatch i e)
  ∧ (∀ n c, ((putCatch i { name := n, message := e.message, code := c }).status = 404 ↔
      (putCatch i e).status = 404)) := by
  refine ⟨?_, ?_, ?_, ?_, ?_, ?_, ?_, ?_, ?_, ?_⟩
  · unfold getByIdCatch
    cases hm : jsIncludes e.message "not found" <;> simp [hm]
  · unfold getByIdCatch
    cases hm : jsIncludes e.message "not found" <;> simp [hm, ItemResponse.status]
  · unfold getByIdCatch
    cases hm : jsIncludes e.message "not found" <;> simp [hm, ItemResponse.status]
  · unfold deleteCatch
    cases hm : jsIncludes e.message "not found" <;> simp [hm, ItemResponse.status]
  · intro hm
    unfold deleteCatch
    simp [hm]
  · unfold putCatch
    cases hm : jsIncludes e.message "not found"
    · cases hv : putValidMatch e <;> simp [hm, hv, ItemResponse.status]
    · simp [hm, ItemResponse.status]
  · intro hm
    unfold putCatch
    simp only [hm, Bool.false_eq_true, if_false]
    refine ⟨?_, ?_⟩
    · cases hv : putValidMatch e <;> simp [hv, ItemResponse.status]
    · intro hv
      simp [hv]
  · intro n c
    rfl
  · intro n c
    rfl
  · intro n c
    unfold putCatch
    cases hm : jsIncludes e.message "not found" <;>
      cases hv : putValidMatch e <;>
        cases hv2 : putValidMatch { name := n, message := e.message, code := c } <;>
          simp [hm, hv, hv2, ItemResponse.status]

/-- C10 witness: a wrapped storage error whose text happens to contain the words
not found is mapped to the 404 not-found envelope. -/
theorem c10_witness :
    getByIdCatch "507f1f77bcf86cd799439011"
      (mkError "Database error while fetching restaurant: session not found") =
      .notFound (notFoundMessage "507f1f77bcf86cd799439011") :=
  ((c10_not_found_mapping "507f1f77bcf86cd799439011"
    (mkError "Database error while fetching restaurant: session not found")).1).mpr
    (by decide)
